import Mathlib

/-!
Verification of the settings store and feature-application engine of the
Zen YouTube browser extension.

The JSON layer models the JavaScript values flowing through
`src/lib/storage.ts` (`MIGRATIONS`, `saveSettings`, `importSettings`,
`exportSettings`): JSON texts are parsed into `Js` values, `JSON.stringify`
with indent 2 is modelled by `jsonStringify`, and object spread / nullish
coalescing are modelled field-for-field.  JSON numbers are restricted to
integers (the repository only ever stores `schemaVersion : 1`).
-/

mutual

/-- A JavaScript JSON value.  Objects keep their fields in insertion order
(as JavaScript objects do); the parser collapses duplicate keys with
last-write-wins, like `JSON.parse`. -/
inductive Js where
  | null : Js
  | bool (b : Bool) : Js
  | num (n : Int) : Js
  | str (s : String) : Js
  | arr (elems : JsArr) : Js
  | obj (fields : JsObj) : Js

/-- A list of JSON array elements. -/
inductive JsArr where
  | nil : JsArr
  | cons (hd : Js) (tl : JsArr) : JsArr

/-- An ordered list of JSON object fields (key, value). -/
inductive JsObj where
  | nil : JsObj
  | cons (key : String) (val : Js) (tl : JsObj) : JsObj

end

deriving instance DecidableEq for Js
deriving instance DecidableEq for JsArr
deriving instance DecidableEq for JsObj

/-- JavaScript property read `o[k]`: `none` models `undefined`. -/
def JsObj.lookup : JsObj → String → Option Js
  | .nil, _ => none
  | .cons k v tl, key => if k = key then some v else tl.lookup key

/-- JavaScript property write `o[k] = v`: overwrites an existing key in
place (keeping its position, as JS objects do), otherwise appends. -/
def JsObj.setField : JsObj → String → Js → JsObj
  | .nil, key, val => .cons key val .nil
  | .cons k v tl, key, val =>
    if k = key then .cons k val tl else .cons k v (tl.setField key val)

/-- Object spread `{...a, ...b}`: the fields of `b` written over `a`. -/
def JsObj.mergeInto (a : JsObj) : JsObj → JsObj
  | .nil => a
  | .cons k v tl => (a.setField k v).mergeInto tl

/-- JSON whitespace (space, tab, newline, carriage return). -/
def isJsonWs (c : Char) : Bool :=
  c = ' ' || c = '\t' || c = '\n' || c = '\r'

/-- Drop leading JSON whitespace. -/
def skipWs : List Char → List Char
  | [] => []
  | c :: cs => if isJsonWs c then skipWs cs else c :: cs

/-- Value of a decimal digit character. -/
def charDigit (c : Char) : Nat := c.toNat - 48

/-- Value of a hexadecimal digit character, if any. -/
def hexVal (c : Char) : Option Nat :=
  if '0' ≤ c ∧ c ≤ '9' then some (c.toNat - 48)
  else if 'a' ≤ c ∧ c ≤ 'f' then some (c.toNat - 87)
  else if 'A' ≤ c ∧ c ≤ 'F' then some (c.toNat - 55)
  else none

/-- Consume an expected literal tail (e.g. `ull` after `n`). -/
def eatLit : List Char → List Char → Option (List Char)
  | [], input => some input
  | p :: ps, c :: cs => if c = p then eatLit ps cs else none
  | _ :: _, [] => none

/-- Parse the body of a JSON string literal (after the opening quote),
returning the content characters and the input after the closing quote.
Surrogate-pair recombination of `\uXXXX` escapes is not modelled; the
repository's own output never escapes non-ASCII characters. -/
def parseStrBody : List Char → Option (List Char × List Char)
  | [] => none
  | '"' :: rest => some ([], rest)
  | '\\' :: 'u' :: a :: b :: c :: d :: rest => do
    let ha ← hexVal a
    let hb ← hexVal b
    let hc ← hexVal c
    let hd ← hexVal d
    let (content, rest') ← parseStrBody rest
    some (Char.ofNat (((ha * 16 + hb) * 16 + hc) * 16 + hd) :: content, rest')
  | '\\' :: e :: rest => do
    let c ← match e with
      | '"' => some '"'
      | '\\' => some '\\'
      | '/' => some '/'
      | 'b' => some '\x08'
      | 'f' => some '\x0c'
      | 'n' => some '\n'
      | 'r' => some '\r'
      | 't' => some '\t'
      | _ => none
    let (content, rest') ← parseStrBody rest
    some (c :: content, rest')
  | c :: rest =>
    if c.toNat < 32 then none
    else do
      let (content, rest') ← parseStrBody rest
      some (c :: content, rest')

/-- Parse a run of decimal digits onto an accumulator. -/
def parseDigits : List Char → Nat → Nat × List Char
  | c :: cs, acc =>
    if c.isDigit then parseDigits cs (acc * 10 + charDigit c) else (acc, c :: cs)
  | [], acc => (acc, [])

mutual

/-- Recursive-descent JSON value parser, modelling `JSON.parse`.
JSON numbers are modelled as integers only (no fraction/exponent);
the repository's records contain no other numbers.  The fuel argument is
only there to bound recursion; `jsonParse` supplies enough for any input. -/
def parseVal : Nat → List Char → Option (Js × List Char)
  | 0, _ => none
  | fuel + 1, input =>
    match skipWs input with
    | [] => none
    | 'n' :: cs => (eatLit ['u', 'l', 'l'] cs).map (fun rest => (.null, rest))
    | 't' :: cs => (eatLit ['r', 'u', 'e'] cs).map (fun rest => (.bool true, rest))
    | 'f' :: cs => (eatLit ['a', 'l', 's', 'e'] cs).map (fun rest => (.bool false, rest))
    | '"' :: cs => (parseStrBody cs).map (fun p => (.str (String.mk p.1), p.2))
    | '-' :: cs =>
      match cs with
      | c :: cs' =>
        if c.isDigit then
          let p := parseDigits cs' (charDigit c)
          some (.num (-(p.1 : Int)), p.2)
        else none
      | [] => none
    | '[' :: cs =>
      (match skipWs cs with
       | ']' :: rest => some (.arr .nil, rest)
       | _ => (parseItems fuel cs).map (fun p => (.arr p.1, p.2)))
    | '{' :: cs =>
      (match skipWs cs with
       | '}' :: rest => some (.obj .nil, rest)
       | _ => (parseFields fuel .nil cs).map (fun p => (.obj p.1, p.2)))
    | c :: cs =>
      if c.isDigit then
        let p := parseDigits cs (charDigit c)
        some (.num (p.1 : Int), p.2)
      else none

/-- Parse the comma-separated elements of a non-empty JSON array. -/
def parseItems : Nat → List Char → Option (JsArr × List Char)
  | 0, _ => none
  | fuel + 1, input => do
    let (v, rest) ← parseVal fuel input
    match skipWs rest with
    | ',' :: rs => do
      let (tl, rest') ← parseItems fuel rs
      some (.cons v tl, rest')
    | ']' :: rs => some (.cons v .nil, rs)
    | _ => none

/-- Parse the fields of a non-empty JSON object, folding each parsed pair
into the accumulator with `setField` (duplicate keys: last write wins,
first position kept, as in JavaScript). -/
def parseFields : Nat → JsObj → List Char → Option (JsObj × List Char)
  | 0, _, _ => none
  | fuel + 1, acc, input =>
    match skipWs input with
    | '"' :: cs => do
      let (k, rest) ← parseStrBody cs
      match skipWs rest with
      | ':' :: rs => do
        let (v, rest') ← parseVal fuel rs
        match skipWs rest' with
        | ',' :: rs' => parseFields fuel (acc.setField (String.mk k) v) rs'
        | '}' :: rs' => some (acc.setField (String.mk k) v, rs')
        | _ => none
      | _ => none
    | _ => none

end

/-- `JSON.parse`: parse a complete JSON text (trailing whitespace allowed,
trailing garbage rejected). -/
def jsonParse (s : String) : Option Js :=
  match parseVal (s.length + 1) s.data with
  | some (v, rest) => if skipWs rest = [] then some v else none
  | none => none

/-- Lowercase hexadecimal digit character. -/
def hexDigit (n : Nat) : Char :=
  if n < 10 then Char.ofNat (48 + n) else Char.ofNat (87 + n)

/-- `JSON.stringify` escaping for one string character. -/
def escapeChar (c : Char) : List Char :=
  if c = '"' then ['\\', '"']
  else if c = '\\' then ['\\', '\\']
  else if c = '\x08' then ['\\', 'b']
  else if c = '\x0c' then ['\\', 'f']
  else if c = '\n' then ['\\', 'n']
  else if c = '\r' then ['\\', 'r']
  else if c = '\t' then ['\\', 't']
  else if c.toNat < 32 then
    ['\\', 'u', '0', '0', hexDigit (c.toNat / 16), hexDigit (c.toNat % 16)]
  else [c]

/-- A JSON string literal, quoted and escaped as `JSON.stringify` does. -/
def printStrLit (s : String) : List Char :=
  '"' :: s.data.foldr (fun c acc => escapeChar c ++ acc) ['"']

/-- `n` spaces of indentation. -/
def spaces (n : Nat) : List Char := List.replicate n ' '

mutual

/-- Pretty-print a JSON value as `JSON.stringify(v, null, 2)` does:
containers spread over lines, two extra spaces of indent per level,
`": "` after keys. -/
def printVal (ind : Nat) : Js → List Char
  | .null => "null".data
  | .bool true => "true".data
  | .bool false => "false".data
  | .num n => (toString n).data
  | .str s => printStrLit s
  | .arr .nil => ['[', ']']
  | .arr (.cons hd tl) =>
    '[' :: '\n' :: (printItems (ind + 2) (.cons hd tl) ++ '\n' :: (spaces ind ++ [']']))
  | .obj .nil => ['{', '}']
  | .obj (.cons k v tl) =>
    '{' :: '\n' :: (printFieldList (ind + 2) (.cons k v tl) ++ '\n' :: (spaces ind ++ ['}']))

/-- The indented, comma-separated element lines of an array. -/
def printItems (ind : Nat) : JsArr → List Char
  | .nil => []
  | .cons hd .nil => spaces ind ++ printVal ind hd
  | .cons hd (.cons hd2 tl) =>
    spaces ind ++ printVal ind hd ++ ',' :: '\n' :: printItems ind (.cons hd2 tl)

/-- The indented, comma-separated field lines of an object. -/
def printFieldList (ind : Nat) : JsObj → List Char
  | .nil => []
  | .cons k v .nil => spaces ind ++ printStrLit k ++ ':' :: ' ' :: printVal ind v
  | .cons k v (.cons k2 v2 tl) =>
    spaces ind ++ printStrLit k ++ ':' :: ' ' :: printVal ind v
      ++ ',' :: '\n' :: printFieldList ind (.cons k2 v2 tl)

end

/-- `JSON.stringify(v, null, 2)`. -/
def jsonStringify (v : Js) : String := String.mk (printVal 0 v)

/-!
Typed settings layer, from `src/types/settings.ts`.

`PerPathSettings` entries are modelled as `Option` of a partial toggle map:
the TypeScript interface declares full `FeatureToggles` per path, but values
arriving through storage or import may carry partial or missing entries, and
`getEffectiveSettings` spreads whatever is there.
-/

/-- The closed set of feature ids (`FeatureToggles` keys). -/
inductive FeatureId where
  | hideShorts | hideHomeFeed | hideEndCards | hideComments | hideSidebar | searchOnly
deriving DecidableEq

/-- `FeatureToggles`: one boolean per feature id. -/
structure FeatureToggles where
  hideShorts : Bool
  hideHomeFeed : Bool
  hideEndCards : Bool
  hideComments : Bool
  hideSidebar : Bool
  searchOnly : Bool
deriving DecidableEq

/-- `toggles[feature]`. -/
def FeatureToggles.get (t : FeatureToggles) : FeatureId → Bool
  | .hideShorts => t.hideShorts
  | .hideHomeFeed => t.hideHomeFeed
  | .hideEndCards => t.hideEndCards
  | .hideComments => t.hideComments
  | .hideSidebar => t.hideSidebar
  | .searchOnly => t.searchOnly

/-- A per-path override entry: a partial `FeatureToggles` (absent keys are
`none`). -/
structure PartialFeatureToggles where
  hideShorts : Option Bool
  hideHomeFeed : Option Bool
  hideEndCards : Option Bool
  hideComments : Option Bool
  hideSidebar : Option Bool
  searchOnly : Option Bool
deriving DecidableEq

/-- `overrides[feature]` (`none` models `undefined`). -/
def PartialFeatureToggles.get (t : PartialFeatureToggles) : FeatureId → Option Bool
  | .hideShorts => t.hideShorts
  | .hideHomeFeed => t.hideHomeFeed
  | .hideEndCards => t.hideEndCards
  | .hideComments => t.hideComments
  | .hideSidebar => t.hideSidebar
  | .searchOnly => t.searchOnly

/-- A full toggle map as a per-path entry (every key present). -/
def fullOverride (t : FeatureToggles) : PartialFeatureToggles :=
  ⟨some t.hideShorts, some t.hideHomeFeed, some t.hideEndCards,
   some t.hideComments, some t.hideSidebar, some t.searchOnly⟩

/-- `PerPathSettings`: overrides for the `watch`, `results` and `feed` pages. -/
structure PerPathSettings where
  watch : Option PartialFeatureToggles
  results : Option PartialFeatureToggles
  feed : Option PartialFeatureToggles
deriving DecidableEq

/-- The page types returned by `getCurrentPageType` (`src/lib/yt-selectors.ts`). -/
inductive PageType where
  | home | watch | results | feed | other
deriving DecidableEq

/-- `settings.perPath[path]`: only `watch`/`results`/`feed` keys exist;
every other page type reads `undefined`. -/
def PerPathSettings.get (pp : PerPathSettings) : PageType → Option PartialFeatureToggles
  | .watch => pp.watch
  | .results => pp.results
  | .feed => pp.feed
  | .home => none
  | .other => none

/-- `ZenSettings` (`src/types/settings.ts`). -/
structure ZenSettings where
  schemaVersion : Int
  enabled : Bool
  customMessage : String
  reducedMotion : Bool
  features : FeatureToggles
  perPath : PerPathSettings
deriving DecidableEq

/-- `DEFAULT_FEATURE_TOGGLES`. -/
def DEFAULT_FEATURE_TOGGLES : FeatureToggles :=
  { hideShorts := true
    hideHomeFeed := true
    hideEndCards := false
    hideComments := false
    hideSidebar := false
    searchOnly := false }

/-- `DEFAULT_PER_PATH_SETTINGS`: full default toggle sets for all three
paths (the `results` entry re-spreads the defaults with `hideEndCards` and
`hideComments` set to their already-default `false`). -/
def DEFAULT_PER_PATH_SETTINGS : PerPathSettings :=
  { watch := some (fullOverride DEFAULT_FEATURE_TOGGLES)
    results := some (fullOverride
      { DEFAULT_FEATURE_TOGGLES with hideEndCards := false, hideComments := false })
    feed := some (fullOverride DEFAULT_FEATURE_TOGGLES) }

/-- `DEFAULT_SETTINGS`. -/
def DEFAULT_SETTINGS : ZenSettings :=
  { schemaVersion := 1
    enabled := true
    customMessage := "🚀 YouTube Distraction Blocker is active"
    reducedMotion := false
    features := DEFAULT_FEATURE_TOGGLES
    perPath := DEFAULT_PER_PATH_SETTINGS }

/-- `{...settings.features, ...pathOverrides}`: a possibly-absent partial
override spread over the global toggles. -/
def applyOverride (f : FeatureToggles) : Option PartialFeatureToggles → FeatureToggles
  | none => f
  | some ov =>
    { hideShorts := ov.hideShorts.getD f.hideShorts
      hideHomeFeed := ov.hideHomeFeed.getD f.hideHomeFeed
      hideEndCards := ov.hideEndCards.getD f.hideEndCards
      hideComments := ov.hideComments.getD f.hideComments
      hideSidebar := ov.hideSidebar.getD f.hideSidebar
      searchOnly := ov.searchOnly.getD f.searchOnly }

/-- `getEffectiveSettings(path)` (`src/lib/storage.ts`), with the stored
record passed explicitly instead of read from storage. -/
def getEffectiveSettings (s : ZenSettings) (path : PageType) : ZenSettings :=
  { s with features := applyOverride s.features (s.perPath.get path) }

/-- `isFeatureEnabled(feature, path)` (`src/lib/storage.ts`): the global
`enabled` flag gates everything; otherwise the effective toggle decides
(the source's `?? false` never fires on a typed record). -/
def isFeatureEnabled (feature : FeatureId) (path : PageType) (s : ZenSettings) : Bool :=
  let effective := getEffectiveSettings s path
  if !effective.enabled then false
  else effective.features.get feature

/-- `FEATURE_AVAILABILITY` (`src/lib/yt-selectors.ts`). -/
def FEATURE_AVAILABILITY : FeatureId → List PageType
  | .hideShorts => [.home, .results, .feed]
  | .hideHomeFeed => [.home]
  | .hideEndCards => [.watch]
  | .hideComments => [.watch, .results]
  | .hideSidebar => [.watch]
  | .searchOnly => [.results]

/-- `isFeatureAvailableOnPage(feature, pageType)`. -/
def isFeatureAvailableOnPage (feature : FeatureId) (pageType : PageType) : Bool :=
  (FEATURE_AVAILABILITY feature).contains pageType

/-!
Conversions from the typed settings shape to JSON values, in the field
order the TypeScript object literals use (which `JSON.stringify` and the
spread operator preserve).
-/

/-- A full toggle map as a JSON object. -/
def togglesToJs (t : FeatureToggles) : Js :=
  .obj (.cons "hideShorts" (.bool t.hideShorts)
    (.cons "hideHomeFeed" (.bool t.hideHomeFeed)
    (.cons "hideEndCards" (.bool t.hideEndCards)
    (.cons "hideComments" (.bool t.hideComments)
    (.cons "hideSidebar" (.bool t.hideSidebar)
    (.cons "searchOnly" (.bool t.searchOnly) .nil))))))

/-- Prepend a field when the optional value is present (absent keys are
simply not serialized). -/
def consOptBool (key : String) (v : Option Bool) (tl : JsObj) : JsObj :=
  match v with
  | some b => .cons key (.bool b) tl
  | none => tl

/-- A partial toggle map as a JSON object (present keys only). -/
def partialTogglesToJs (t : PartialFeatureToggles) : Js :=
  .obj (consOptBool "hideShorts" t.hideShorts
    (consOptBool "hideHomeFeed" t.hideHomeFeed
    (consOptBool "hideEndCards" t.hideEndCards
    (consOptBool "hideComments" t.hideComments
    (consOptBool "hideSidebar" t.hideSidebar
    (consOptBool "searchOnly" t.searchOnly .nil))))))

/-- Prepend a per-path entry when present. -/
def consOptEntry (key : String) (v : Option PartialFeatureToggles) (tl : JsObj) : JsObj :=
  match v with
  | some t => .cons key (partialTogglesToJs t) tl
  | none => tl

/-- A `PerPathSettings` value as a JSON object. -/
def perPathToJs (pp : PerPathSettings) : Js :=
  .obj (consOptEntry "watch" pp.watch
    (consOptEntry "results" pp.results
    (consOptEntry "feed" pp.feed .nil)))

/-- A `ZenSettings` record as a JSON object, fields in the order of the
`ZenSettings` interface and of every literal that builds one. -/
def settingsToJs (s : ZenSettings) : Js :=
  .obj (.cons "schemaVersion" (.num s.schemaVersion)
    (.cons "enabled" (.bool s.enabled)
    (.cons "customMessage" (.str s.customMessage)
    (.cons "reducedMotion" (.bool s.reducedMotion)
    (.cons "features" (togglesToJs s.features)
    (.cons "perPath" (perPathToJs s.perPath) .nil))))))

/-!
The preference store (`src/lib/storage.ts`) at the JSON-value level.
Raw stored values and import payloads are arbitrary JSON, so these
operations work on `Js`; the storage transport itself is modelled on its
happy path (the sync backend accepts every read/write).
-/

/-- `x ?? default` source material: property read that treats JavaScript
`null` like `undefined` (the two nullish values). -/
def nullishGet (v : Js) (key : String) : Option Js :=
  match v with
  | .obj fields =>
    match fields.lookup key with
    | some .null => none
    | o => o
  | _ => none

/-- `CURRENT_SCHEMA_VERSION`. -/
def CURRENT_SCHEMA_VERSION : Int := 1

/-- `MIGRATIONS[1]` from `src/lib/storage.ts`: rebuilds the record with
`??` defaults.  Note that every feature toggle is read from the TOP LEVEL
of the input (`settings.hideShorts`, ...), not from a nested
`settings.features` object; a nested `features` value in the input is
never consulted. -/
def MIGRATIONS_v1 (settings : Js) : Js :=
  .obj (.cons "schemaVersion" (.num 1)
    (.cons "enabled" ((nullishGet settings "enabled").getD (.bool true))
    (.cons "customMessage" ((nullishGet settings "customMessage").getD
      (.str "🚀 YouTube Distraction Blocker is active"))
    (.cons "reducedMotion" ((nullishGet settings "reducedMotion").getD (.bool false))
    (.cons "features" (.obj
      (.cons "hideShorts" ((nullishGet settings "hideShorts").getD (.bool true))
      (.cons "hideHomeFeed" ((nullishGet settings "hideHomeFeed").getD (.bool true))
      (.cons "hideEndCards" ((nullishGet settings "hideEndCards").getD (.bool false))
      (.cons "hideComments" ((nullishGet settings "hideComments").getD (.bool false))
      (.cons "hideSidebar" ((nullishGet settings "hideSidebar").getD (.bool false))
      (.cons "searchOnly" ((nullishGet settings "searchOnly").getD (.bool false)) .nil)))))))
    (.cons "perPath" ((nullishGet settings "perPath").getD
      (perPathToJs DEFAULT_PER_PATH_SETTINGS)) .nil))))))

/-- The fields of a stored record (always an object in practice). -/
def jsFields : Js → JsObj
  | .obj fields => fields
  | _ => .nil

/-- `saveSettings(updates)`: read current, `{...current, ...updates}`,
force `schemaVersion` to current, write; returns the written record. -/
def saveSettings (current updates : Js) : Js :=
  let updated := (jsFields current).mergeInto (jsFields updates)
  .obj (updated.setField "schemaVersion" (.num CURRENT_SCHEMA_VERSION))

/-- `typeof imported === 'object' && imported !== null`. -/
def Js.isObjectLike : Js → Bool
  | .obj _ => true
  | .arr _ => true
  | _ => false

/-- `exportSettings()`: `JSON.stringify(settings, null, 2)` of the current
record. -/
def exportSettings (stored : Js) : String := jsonStringify stored

/-- `importSettings(jsonString)`: parse, validate the basic structure, run
`MIGRATIONS[CURRENT_SCHEMA_VERSION]`, save.  Returns the new stored record,
or the error thrown before any write.  (The parser's error text is
engine-specific; only its presence matters.) -/
def importSettings (jsonString : String) (current : Js) : Except String Js :=
  match jsonParse jsonString with
  | none => .error "Import failed: Unexpected token in JSON"
  | some imported =>
    if imported.isObjectLike then
      .ok (saveSettings current (MIGRATIONS_v1 imported))
    else .error "Import failed: Invalid JSON format"

/-- `importSettings` as a transition on the stored record: a
rejected import performs no write. -/
def importRun (jsonString : String) (stored : Js) : Js × Except String Unit :=
  match importSettings jsonString stored with
  | .ok r => (r, .ok ())
  | .error e => (stored, .error e)

/-!
The orchestrator (`src/entrypoints/content.tsx`), as a state machine over
the feature controllers' `isEnabled` flags and the overlay mount state.
DOM effects are abstracted away; what remains is exactly the control flow
of `updateAllFeatures`, `updateZenSearch` and `handleSettingsChange`.
-/

/-- The `isEnabled` flag of each feature module. -/
structure ControllerStates where
  hideShorts : Bool
  hideHomeFeed : Bool
  hideEndCards : Bool
  hideComments : Bool
  hideSidebar : Bool
  searchOnly : Bool
deriving DecidableEq

/-- Read one controller's flag. -/
def ControllerStates.get (st : ControllerStates) : FeatureId → Bool
  | .hideShorts => st.hideShorts
  | .hideHomeFeed => st.hideHomeFeed
  | .hideEndCards => st.hideEndCards
  | .hideComments => st.hideComments
  | .hideSidebar => st.hideSidebar
  | .searchOnly => st.searchOnly

/-- Write one controller's flag. -/
def ControllerStates.set (st : ControllerStates) : FeatureId → Bool → ControllerStates
  | .hideShorts, b => { st with hideShorts := b }
  | .hideHomeFeed, b => { st with hideHomeFeed := b }
  | .hideEndCards, b => { st with hideEndCards := b }
  | .hideComments, b => { st with hideComments := b }
  | .hideSidebar, b => { st with hideSidebar := b }
  | .searchOnly, b => { st with searchOnly := b }

/-- `enable(pageType)` on a feature module: no-op when already enabled;
`HideHomeFeedModule.enable` additionally refuses on non-home pages. -/
def moduleEnable (f : FeatureId) (pageType : PageType) (st : ControllerStates) : ControllerStates :=
  match f with
  | .hideHomeFeed =>
    if st.get f || !(pageType = .home : Bool) then st else st.set f true
  | _ => if st.get f then st else st.set f true

/-- `disable()` on a feature module: no-op when already disabled. -/
def moduleDisable (f : FeatureId) (st : ControllerStates) : ControllerStates :=
  if !st.get f then st else st.set f false

/-- `Object.entries(this.features)` iteration order. -/
def featureOrder : List FeatureId :=
  [.hideShorts, .hideHomeFeed, .hideEndCards, .hideComments, .hideSidebar, .searchOnly]

/-- The body of `updateAllFeatures`' per-feature loop. -/
def featureStep (features : FeatureToggles) (pageType : PageType)
    (st : ControllerStates) (f : FeatureId) : ControllerStates :=
  let enable := features.get f && isFeatureAvailableOnPage f pageType
  if enable && !st.get f then moduleEnable f pageType st
  else if !enable && st.get f then moduleDisable f st
  else st

/-- The global-disable branch of `updateAllFeatures`: disable every
currently-enabled controller. -/
def disableAll (st : ControllerStates) : ControllerStates :=
  featureOrder.foldl (fun st f => if st.get f then moduleDisable f st else st) st

/-- `updateAllFeatures()`: with no settings or `enabled: false`, force all
controllers off; otherwise enable/disable each controller toward
`features[name] && isFeatureAvailableOnPage(name, pageType)`. -/
def updateAllFeatures (settings : Option ZenSettings) (pageType : PageType)
    (st : ControllerStates) : ControllerStates :=
  match settings with
  | none => disableAll st
  | some cfg =>
    if !cfg.enabled then disableAll st
    else featureOrder.foldl (featureStep cfg.features pageType) st

/-- The orchestrator's mutable state (settings snapshot, current page type,
overlay mount state, controller flags). -/
structure OrchState where
  settings : Option ZenSettings
  currentPageType : PageType
  overlayMounted : Bool
  ctrl : ControllerStates
deriving DecidableEq

/-- `updateZenSearch`'s `shouldShow` condition. -/
def shouldShowZen (settings : Option ZenSettings) (pageType : PageType) : Bool :=
  (settings.map fun s => s.features.hideHomeFeed).getD false
    && (pageType = .home : Bool)
    && (settings.map fun s => s.enabled).getD false

/-- `updateZenSearch()`: mount or unmount the overlay toward `shouldShow`
(both directions are no-ops when already in the target state). -/
def updateZenSearch (st : OrchState) : OrchState :=
  { st with overlayMounted := shouldShowZen st.settings st.currentPageType }

/-- `handleSettingsChange(newSettings)`: swap in the snapshot, recheck the
overlay only when there was no previous snapshot or the `enabled` flag
changed, then run `updateAllFeatures`. -/
def handleSettingsChange (st : OrchState) (newSettings : ZenSettings) : OrchState :=
  let zenRecheck : Bool :=
    match st.settings with
    | none => true
    | some prev => !(prev.enabled = newSettings.enabled : Bool)
  let st1 := { st with settings := some newSettings }
  let st2 := if zenRecheck then updateZenSearch st1 else st1
  { st2 with ctrl := updateAllFeatures st2.settings st2.currentPageType st2.ctrl }

/-!
The overlay mount/unmount side-effect order (`showZenSearch` /
`hideZenSearch` in `src/entrypoints/content.tsx`), as ordered step lists.
-/

/-- The individual side effects of mounting/unmounting the overlay. -/
inductive OverlayStep where
  | applyPageHideStyles
  | createOverlayHost
  | attachShadowRoot
  | adoptStylesheet
  | mountReactApp
  | unmountReactApp
  | removeOverlayHost
  | removePageHideStyles
deriving DecidableEq

/-- `showZenSearch()` in source order: page-level hide styles first, then
the host element, its shadow root, the stylesheet, the React mount. -/
def showZenSearchSteps : List OverlayStep :=
  [.applyPageHideStyles, .createOverlayHost, .attachShadowRoot, .adoptStylesheet, .mountReactApp]

/-- `hideZenSearch()` in source order: unmount React, remove the host
element (with its shadow root), and only then remove the page-level hide
styles. -/
def hideZenSearchSteps : List OverlayStep :=
  [.unmountReactApp, .removeOverlayHost, .removePageHideStyles]

/-!
`BaseFeatureModule.applyHide`'s retry loop, in a document where the
feature's selectors never match anything.
-/

/-- `maxRetries`. -/
def maxRetries : Nat := 10

/-- `retryInterval` (milliseconds). -/
def retryInterval : Nat := 500

/-- `applyHide()` starting from retry counter `r`, when
`document.querySelectorAll` finds nothing on every call: returns the total
number of location attempts performed and the delays of the timers
scheduled along the way.  Each scheduled timer is consumed by the next
recursive call; the final call schedules nothing (it applies the empty
result and installs the standing observer), so no retry timer is pending
once the function returns. -/
def applyHideNoRegion (r : Nat) : Nat × List Nat :=
  if r < maxRetries then
    let rest := applyHideNoRegion (r + 1)
    (1 + rest.1, retryInterval :: rest.2)
  else (1, [])
termination_by maxRetries - r

/-- `enable()` on a fresh controller resets the retry counter to 0 before
calling `applyHide`: total location attempts in an empty document. -/
def enableNoRegionAttempts : Nat := (applyHideNoRegion 0).1

/-- The timer delays scheduled by that same run. -/
def enableNoRegionDelays : List Nat := (applyHideNoRegion 0).2

/-!
Auxiliary instances and concrete records used by the theorems below.
-/

deriving instance Fintype for FeatureId
deriving instance Fintype for PageType
deriving instance Fintype for FeatureToggles
deriving instance Fintype for ControllerStates
deriving instance DecidableEq for Except

/-- The target state of step 4 of the apply pass: a controller should end
up enabled exactly when the global switch is on, its toggle is on, and the
feature is available on the current page. -/
def wantedFeature (enabled : Bool) (features : FeatureToggles) (pageType : PageType)
    (f : FeatureId) : Bool :=
  enabled && features.get f && isFeatureAvailableOnPage f pageType

/-- All controllers off. -/
def ctrlAllOff : ControllerStates :=
  { hideShorts := false, hideHomeFeed := false, hideEndCards := false,
    hideComments := false, hideSidebar := false, searchOnly := false }

/-- A features map differing from the defaults in one entry. -/
def c1Features : FeatureToggles := { DEFAULT_FEATURE_TOGGLES with hideEndCards := true }

/-- A stored record reached from the defaults by one `saveSettings` patch
(the options page's feature toggle write). -/
def c1Record : ZenSettings := { DEFAULT_SETTINGS with features := c1Features }

/-- A legacy flat stored record (version 0, feature flags at top level),
the input shape `MIGRATIONS[1]` was written for. -/
def c2Stored : Js :=
  .obj (.cons "schemaVersion" (.num 0) (.cons "hideEndCards" (.bool true) .nil))

/-- A record whose `schemaVersion` is below current, in the current nested
shape. -/
def c2Typed : ZenSettings := { DEFAULT_SETTINGS with schemaVersion := 0 }

/-- A record with the global switch off. -/
def c3Disabled : ZenSettings := { DEFAULT_SETTINGS with enabled := false }

/-- The spec's overlay example: global `features = {A: true, B: false}`
(A = `hideShorts`, B = `hideHomeFeed`) with `perPath.watch = {A: false}`. -/
def c4Example : ZenSettings :=
  { DEFAULT_SETTINGS with
    features := { hideShorts := true, hideHomeFeed := false, hideEndCards := false,
                  hideComments := false, hideSidebar := false, searchOnly := false }
    perPath := { watch := some { hideShorts := some false, hideHomeFeed := none,
                                 hideEndCards := none, hideComments := none,
                                 hideSidebar := none, searchOnly := none }
                 results := none, feed := none } }

/-- New settings identical to the previous snapshot except the overlay
feature's own toggle (`hideHomeFeed`). -/
def c8New : ZenSettings :=
  { DEFAULT_SETTINGS with features := { DEFAULT_FEATURE_TOGGLES with hideHomeFeed := false } }

/-- An orchestrator state on the home page, overlay mounted, consistent
with the default settings snapshot. -/
def c8State : OrchState :=
  { settings := some DEFAULT_SETTINGS
    currentPageType := .home
    overlayMounted := true
    ctrl := { hideShorts := true, hideHomeFeed := true, hideEndCards := false,
              hideComments := false, hideSidebar := false, searchOnly := false } }

/-!
Helper lemmas shared by the claim theorems.
-/

theorem bool_pin {a b : Bool} (h1 : a = true → b = true) (h2 : a = false → b = false) :
    b = a := by
  cases a
  · exact h2 rfl
  · exact h1 rfl

theorem disableAll_get : ∀ (st : ControllerStates) (f : FeatureId),
    (disableAll st).get f = false := by
  decide

theorem featureStep_get_ne (ft : FeatureToggles) (pt : PageType) (st : ControllerStates)
    (f' f : FeatureId) (h : f' ≠ f) : (featureStep ft pt st f').get f = st.get f := by
  cases f' <;> cases f <;>
    first
      | exact absurd rfl h
      | (simp only [featureStep, moduleEnable, moduleDisable]
         split_ifs <;> rfl)

theorem featureStep_get_self (ft : FeatureToggles) (pt : PageType) (st : ControllerStates)
    (f : FeatureId) :
    (featureStep ft pt st f).get f = (ft.get f && isFeatureAvailableOnPage f pt) := by
  cases f <;> cases pt <;>
    simp [featureStep, moduleEnable, moduleDisable, isFeatureAvailableOnPage,
      FEATURE_AVAILABILITY, ControllerStates.get, ControllerStates.set, FeatureToggles.get] <;>
    split_ifs <;> simp_all <;> (rename_i h1 h2; exact bool_pin h1 h2)

theorem updateAllFeatures_get (cfg : ZenSettings) (pt : PageType) (st : ControllerStates)
    (f : FeatureId) :
    (updateAllFeatures (some cfg) pt st).get f = wantedFeature cfg.enabled cfg.features pt f := by
  obtain ⟨ver, en, msg, rm, ft, pp⟩ := cfg
  show (if !en then disableAll st else featureOrder.foldl (featureStep ft pt) st).get f
      = wantedFeature en ft pt f
  cases en with
  | false => simp [wantedFeature, disableAll_get]
  | true =>
    simp only [Bool.not_true, Bool.false_eq_true, if_false, wantedFeature, Bool.true_and]
    simp only [featureOrder, List.foldl_cons, List.foldl_nil]
    cases f
    case hideShorts =>
      rw [featureStep_get_ne _ _ _ _ _ (by decide), featureStep_get_ne _ _ _ _ _ (by decide),
        featureStep_get_ne _ _ _ _ _ (by decide), featureStep_get_ne _ _ _ _ _ (by decide),
        featureStep_get_ne _ _ _ _ _ (by decide), featureStep_get_self]
    case hideHomeFeed =>
      rw [featureStep_get_ne _ _ _ _ _ (by decide), featureStep_get_ne _ _ _ _ _ (by decide),
        featureStep_get_ne _ _ _ _ _ (by decide), featureStep_get_ne _ _ _ _ _ (by decide),
        featureStep_get_self]
    case hideEndCards =>
      rw [featureStep_get_ne _ _ _ _ _ (by decide), featureStep_get_ne _ _ _ _ _ (by decide),
        featureStep_get_ne _ _ _ _ _ (by decide), featureStep_get_self]
    case hideComments =>
      rw [featureStep_get_ne _ _ _ _ _ (by decide), featureStep_get_ne _ _ _ _ _ (by decide),
        featureStep_get_self]
    case hideSidebar =>
      rw [featureStep_get_ne _ _ _ _ _ (by decide), featureStep_get_self]
    case searchOnly =>
      rw [featureStep_get_self]

theorem applyHideNoRegion_run :
    applyHideNoRegion 0 = (maxRetries + 1, List.replicate maxRetries retryInterval) := by
  simp [applyHideNoRegion, maxRetries, retryInterval, List.replicate]

/-!
Claim theorems.
-/

/-- C1: the import round-trip does NOT leave the effective settings
unchanged.  Starting from the reachable stored record with
`features.hideEndCards = true` (one `saveSettings` patch away from the
defaults), `importSettings(exportSettings())` succeeds and writes a record
whose `features` map is reset to the defaults: the migration run by import
reads feature toggles from the top level of the parsed payload, so the
exported nested `features` object is dropped.  The effective value of
`hideEndCards` on the `home` page flips from `true` to `false`. -/
theorem import_export_round_trip_resets_features :
    saveSettings (settingsToJs DEFAULT_SETTINGS)
        (.obj (.cons "features" (togglesToJs c1Features) .nil))
      = settingsToJs c1Record
    ∧ importRun (exportSettings (settingsToJs c1Record)) (settingsToJs c1Record)
      = (settingsToJs DEFAULT_SETTINGS, .ok ())
    ∧ settingsToJs DEFAULT_SETTINGS ≠ settingsToJs c1Record
    ∧ isFeatureEnabled .hideEndCards .home c1Record = true
    ∧ isFeatureEnabled .hideEndCards .home DEFAULT_SETTINGS = false := by
  set_option maxRecDepth 10000 in decide

/-- C2 (counterexample): the schema migration is not idempotent.  On the
version-0 flat record `{schemaVersion: 0, hideEndCards: true}` the first
migration moves the flag into `features`, and a second migration, finding
no top-level flags anymore, resets `features.hideEndCards` to its default
`false`, so `migrate(migrate(R)) ≠ migrate(R)`. -/
theorem migration_not_idempotent_counterexample :
    (0 : Int) < CURRENT_SCHEMA_VERSION
    ∧ MIGRATIONS_v1 (MIGRATIONS_v1 c2Stored) ≠ MIGRATIONS_v1 c2Stored := by
  decide

/-- C2 (amended): on records in the current nested shape (feature toggles
under a `features` key, none at top level) the migration is idempotent and
stamps `schemaVersion` with the current version; `enabled`,
`customMessage`, `reducedMotion` and `perPath` keep their stored values
(stored values win), while the stored nested `features` map is ignored and
rebuilt from the defaults table. -/
theorem migration_idempotent_on_nested_records (S : ZenSettings)
    (_h : S.schemaVersion < CURRENT_SCHEMA_VERSION) :
    MIGRATIONS_v1 (MIGRATIONS_v1 (settingsToJs S)) = MIGRATIONS_v1 (settingsToJs S)
    ∧ (jsFields (MIGRATIONS_v1 (settingsToJs S))).lookup "schemaVersion"
        = some (.num CURRENT_SCHEMA_VERSION)
    ∧ (jsFields (MIGRATIONS_v1 (settingsToJs S))).lookup "enabled" = some (.bool S.enabled)
    ∧ (jsFields (MIGRATIONS_v1 (settingsToJs S))).lookup "customMessage"
        = some (.str S.customMessage)
    ∧ (jsFields (MIGRATIONS_v1 (settingsToJs S))).lookup "reducedMotion"
        = some (.bool S.reducedMotion)
    ∧ (jsFields (MIGRATIONS_v1 (settingsToJs S))).lookup "perPath"
        = some (perPathToJs S.perPath)
    ∧ (jsFields (MIGRATIONS_v1 (settingsToJs S))).lookup "features"
        = some (togglesToJs DEFAULT_FEATURE_TOGGLES) := by
  exact ⟨rfl, rfl, rfl, rfl, rfl, rfl, rfl⟩

/-- Witness for C2's amended theorem at the concrete version-0 record. -/
theorem migration_idempotent_on_nested_records_witness :
    c2Typed.schemaVersion < CURRENT_SCHEMA_VERSION
    ∧ MIGRATIONS_v1 (MIGRATIONS_v1 (settingsToJs c2Typed)) = MIGRATIONS_v1 (settingsToJs c2Typed) :=
  ⟨by decide, (migration_idempotent_on_nested_records c2Typed (by decide)).1⟩

/-- C3: with `enabled = false`, every feature is effectively off on every
page: `isFeatureEnabled` returns `false` whatever `features` and `perPath`
contain, and the apply pass (`updateAllFeatures`) forces every controller
to Disabled from any prior controller state. -/
theorem global_disable_dominance (s : ZenSettings) (f : FeatureId) (pt : PageType)
    (st : ControllerStates) (h : s.enabled = false) :
    isFeatureEnabled f pt s = false
    ∧ (updateAllFeatures (some s) pt st).get f = false := by
  constructor
  · simp [isFeatureEnabled, getEffectiveSettings, h]
  · rw [updateAllFeatures_get, wantedFeature, h]
    simp

/-- Witness for C3 at a concrete disabled record. -/
theorem global_disable_dominance_witness :
    c3Disabled.enabled = false
    ∧ isFeatureEnabled .hideShorts .home c3Disabled = false :=
  ⟨by decide, (global_disable_dominance c3Disabled .hideShorts .home ctrlAllOff (by decide)).1⟩

/-- C4: the effective feature map is the global map overlaid with the
category's per-path override when present, and the global map unchanged
otherwise; instantiated on the spec's example (A = `hideShorts`,
B = `hideHomeFeed`, `perPath.watch = {A: false}`), the effective map for
`watch` is `{A: false, B: false}` and for `home` it is the global map. -/
theorem effective_settings_overlay (s : ZenSettings) (pt : PageType) (f : FeatureId) :
    ((getEffectiveSettings s pt).features.get f
      = match s.perPath.get pt with
        | some ov => (ov.get f).getD (s.features.get f)
        | none => s.features.get f)
    ∧ (getEffectiveSettings c4Example .watch).features
      = { hideShorts := false, hideHomeFeed := false, hideEndCards := false,
          hideComments := false, hideSidebar := false, searchOnly := false }
    ∧ (getEffectiveSettings c4Example .home).features = c4Example.features := by
  refine ⟨?_, by decide, by decide⟩
  obtain ⟨ver, en, msg, rm, ft, ⟨w, r, fd⟩⟩ := s
  cases pt <;>
    first
      | rfl
      | (cases w <;> cases f <;> rfl)
      | (cases r <;> cases f <;> rfl)
      | (cases fd <;> cases f <;> rfl)

/-- Witness for C4 at the example record, `watch` page, feature A. -/
theorem effective_settings_overlay_witness :
    (getEffectiveSettings c4Example .watch).features.get .hideShorts
      = match c4Example.perPath.get .watch with
        | some ov => (ov.get .hideShorts).getD (c4Example.features.get .hideShorts)
        | none => c4Example.features.get .hideShorts :=
  (effective_settings_overlay c4Example .watch .hideShorts).1

/-- C5 (counterexample): in a document where the selectors never match,
`enable` does not make exactly `maxRetries = 10` location attempts — the
initial synchronous attempt precedes the 10 scheduled retries, for 11
`querySelectorAll` calls in total. -/
theorem retry_attempt_count_counterexample : enableNoRegionAttempts ≠ maxRetries := by
  unfold enableNoRegionAttempts
  rw [applyHideNoRegion_run]
  decide

/-- C5 (amended): when no matching region ever appears, `enable` makes
exactly `maxRetries + 1 = 11` location attempts (the initial attempt plus
`maxRetries` retries), each retry scheduled at the fixed `retryInterval`,
and then stops: the recursion ends in the branch that schedules no timer,
so no retry timer is pending after the bound is reached. -/
theorem retry_bound_eleven_attempts :
    enableNoRegionAttempts = maxRetries + 1
    ∧ enableNoRegionDelays = List.replicate maxRetries retryInterval := by
  unfold enableNoRegionAttempts enableNoRegionDelays
  rw [applyHideNoRegion_run]
  exact ⟨rfl, rfl⟩

/-- C6: for every input string that does not parse as JSON (such as
`"not json"`), import is rejected with an error and performs no write:
the stored record after the failed call is the record before it. -/
theorem invalid_import_rejected_no_write (s : String) (stored : Js)
    (h : jsonParse s = none) :
    (importRun s stored).1 = stored
    ∧ (importRun s stored).2 = .error "Import failed: Unexpected token in JSON" := by
  unfold importRun importSettings
  rw [h]
  exact ⟨rfl, rfl⟩

/-- Witness for C6 at the exemplar text `"not json"` and the default
stored record. -/
theorem invalid_import_rejected_no_write_witness :
    jsonParse "not json" = none
    ∧ (importRun "not json" (settingsToJs DEFAULT_SETTINGS)).1 = settingsToJs DEFAULT_SETTINGS :=
  ⟨by decide,
    (invalid_import_rejected_no_write "not json" (settingsToJs DEFAULT_SETTINGS) (by decide)).1⟩

/-- C7: `saveSettings({enabled: false})` on any stored record yields the
record identical in every other field — `customMessage`, `reducedMotion`,
every `features` entry and every `perPath` entry — with only `enabled`
changed and `schemaVersion` forced to the current version. -/
theorem patch_merge_enabled_only (S : ZenSettings) (_h : S.enabled = true) :
    saveSettings (settingsToJs S) (.obj (.cons "enabled" (.bool false) .nil))
      = settingsToJs { S with enabled := false, schemaVersion := CURRENT_SCHEMA_VERSION } :=
  rfl

/-- Witness for C7 at the default record. -/
theorem patch_merge_enabled_only_witness :
    DEFAULT_SETTINGS.enabled = true
    ∧ saveSettings (settingsToJs DEFAULT_SETTINGS) (.obj (.cons "enabled" (.bool false) .nil))
      = settingsToJs
          { DEFAULT_SETTINGS with enabled := false, schemaVersion := CURRENT_SCHEMA_VERSION } :=
  ⟨by decide, patch_merge_enabled_only DEFAULT_SETTINGS (by decide)⟩

/-- C8 (counterexample): with the orchestrator on the home page, overlay
mounted, and new settings equal to the previous snapshot except
`features.hideHomeFeed` (the overlay feature's own toggle) turned off,
`handleSettingsChange` leaves the overlay mounted even though the overlay
condition is now false: the overlay decision is skipped because the
`enabled` flag did not change, so this toggle does not take effect. -/
theorem overlay_toggle_not_applied_counterexample :
    shouldShowZen (some DEFAULT_SETTINGS) .home = true
    ∧ c8State.overlayMounted = true
    ∧ shouldShowZen (some c8New) .home = false
    ∧ (handleSettingsChange c8State c8New).overlayMounted = true := by
  decide

/-- C8 (amended): on a settings-change notification the orchestrator
always re-runs the feature pass (step 4) — afterwards every controller
matches `wanted` for the new settings, so non-overlay toggles take
effect — and it adopts the new snapshot; but the overlay decision
(step 3) re-runs only when there was no previous snapshot or the `enabled`
flag changed, and otherwise the overlay mount state is simply carried
over. -/
theorem settings_change_apply_pass (st : OrchState) (new : ZenSettings) :
    (∀ f, (handleSettingsChange st new).ctrl.get f
        = wantedFeature new.enabled new.features st.currentPageType f)
    ∧ (handleSettingsChange st new).settings = some new
    ∧ (∀ prev, st.settings = some prev → prev.enabled = new.enabled →
        (handleSettingsChange st new).overlayMounted = st.overlayMounted)
    ∧ ((∀ prev, st.settings = some prev → prev.enabled ≠ new.enabled) →
        (handleSettingsChange st new).overlayMounted
          = shouldShowZen (some new) st.currentPageType) := by
  refine ⟨?_, ?_, ?_, ?_⟩
  · intro f
    simp only [handleSettingsChange, updateZenSearch]
    split_ifs <;> rw [updateAllFeatures_get]
  · cases hs : st.settings with
    | none => simp [handleSettingsChange, hs, updateZenSearch]
    | some prev =>
      simp only [handleSettingsChange, hs, updateZenSearch]
      split_ifs <;> rfl
  · intro prev hp he
    simp [handleSettingsChange, hp, he, updateZenSearch]
  · intro hne
    cases hs : st.settings with
    | none => simp [handleSettingsChange, hs, updateZenSearch]
    | some prev =>
      have hpe := hne prev hs
      simp [handleSettingsChange, hs, updateZenSearch, hpe]

/-- Witness for C8's amended theorem at the concrete state and settings. -/
theorem settings_change_apply_pass_witness :
    (handleSettingsChange c8State c8New).ctrl.get .hideHomeFeed
      = wantedFeature c8New.enabled c8New.features c8State.currentPageType .hideHomeFeed :=
  (settings_change_apply_pass c8State c8New).1 .hideHomeFeed

/-- C9 (counterexample): unmounting does not remove the page-level hide
rules before tearing down the rendering surface — in `hideZenSearch` the
hide-style removal comes after the host teardown, not before. -/
theorem unmount_order_counterexample :
    ¬ (hideZenSearchSteps.indexOf .removePageHideStyles
        < hideZenSearchSteps.indexOf .removeOverlayHost) := by
  decide

/-- C9 (amended): unmounting reverses mounting in the opposite order:
mounting applies the page-level hide rules before building the rendering
surface, and unmounting tears the surface down first (React unmount, then
host removal) and removes the page-level hide rules last. -/
theorem unmount_reverses_mount_order :
    showZenSearchSteps.indexOf .applyPageHideStyles
      < showZenSearchSteps.indexOf .createOverlayHost
    ∧ hideZenSearchSteps.indexOf .unmountReactApp
      < hideZenSearchSteps.indexOf .removeOverlayHost
    ∧ hideZenSearchSteps.indexOf .removeOverlayHost
      < hideZenSearchSteps.indexOf .removePageHideStyles := by
  decide

/-- C10: `importSettings` accepts every JSON text whose parse result is an
object or an array (never rejecting for missing or wrongly-typed fields)
and writes the migrated record; in particular `"[]"` parses to an array,
which the version-1 migration coerces to the fully-defaulted record, and
the write occurs. -/
theorem import_accepts_object_like :
    (∀ (s : String) (v cur : Js), jsonParse s = some v → v.isObjectLike = true →
        importSettings s cur = .ok (saveSettings cur (MIGRATIONS_v1 v)))
    ∧ jsonParse "[]" = some (.arr .nil)
    ∧ MIGRATIONS_v1 (.arr .nil) = settingsToJs DEFAULT_SETTINGS
    ∧ ∀ cur : Js, importRun "[]" cur = (saveSettings cur (settingsToJs DEFAULT_SETTINGS), .ok ()) := by
  refine ⟨?_, by decide, by decide, fun cur => rfl⟩
  intro s v cur hp hv
  unfold importSettings
  rw [hp]
  simp [hv]

/-- Witness for C10 at the top-level-array payload `"[]"`. -/
theorem import_accepts_object_like_witness :
    importSettings "[]" (settingsToJs DEFAULT_SETTINGS)
      = .ok (saveSettings (settingsToJs DEFAULT_SETTINGS) (MIGRATIONS_v1 (.arr .nil))) :=
  import_accepts_object_like.1 "[]" (.arr .nil) (settingsToJs DEFAULT_SETTINGS)
    (by decide) (by decide)
